import Mathlib

/-!
Shallow embedding of the single-entity edit/create/delete workflow of
`create-ej-app` (the task form component: schema validation, capability
gating, save/delete lifecycle, delete confirmation, navigation and
notification effects), together with theorems settling the spec claims.
-/

namespace CreateEjApp

/-- Modelled from the spec: the fixed status enumeration (`TaskStatus` comes
from the generated `@prisma/client` module, which is not part of the source
tree).  The spec fixes it as a closed enumerated set whose first/default
member is `Todo` and which contains `InProgress`; we include a third
terminal member. -/
def taskStatuses : List String := ["Todo", "InProgress", "Done"]

/-- A draft of the editable fields held in Form State (the values of the
three form fields: `title`, `status`, `description`). -/
structure Draft where
  title : String
  status : String
  description : String
deriving DecidableEq, Repr

/-- Per-field validation errors, as surfaced by the zod resolver:
`title` via `z.string().nonempty()`, `status` via
`z.nativeEnum(TaskStatus)`; `description` is `z.string().optional()` and
never errs on a string. -/
structure FieldErrors where
  title : Option String
  status : Option String
deriving DecidableEq, Repr

/-- The empty error mapping: the draft passed schema validation. -/
def noErrors : FieldErrors := ⟨none, none⟩

/-- `z.string().nonempty()` on the title field. -/
def validateTitle (t : String) : Option String :=
  if t = "" then some "String must contain at least 1 character(s)" else none

/-- `z.nativeEnum(TaskStatus)` on the status field. -/
def validateStatus (s : String) : Option String :=
  if taskStatuses.contains s then none else some "Invalid enum value"

/-- Run the `TaskSchema` zod object over a draft, collecting per-field
errors. -/
def checkDraft (d : Draft) : FieldErrors :=
  ⟨validateTitle d.title, validateStatus d.status⟩

/-- The persisted entity handed to the component (`GetTaskFnDataType`):
an identity plus the editable fields, with `Option` capturing the
null/undefined cases the seeding code (`?? ''`, `|| 'Todo'`) handles.
Provenance fields are read-only display data and are not part of the
workflow state. -/
structure Task where
  id : String
  title : Option String
  status : Option String
  description : Option String
deriving DecidableEq, Repr

/-- The `defaultValues` passed to `useForm`:
`title: task?.title ?? ''`, `status: task?.status || 'Todo'`,
`description: task?.description ?? ''`.  Note `||` (not `??`) on status:
a falsy (empty-string) status also falls back to `'Todo'`. -/
def defaultValues (task : Option Task) : Draft where
  title := (task.bind Task.title).getD ""
  status :=
    match task.bind Task.status with
    | none => "Todo"
    | some s => if s = "" then "Todo" else s
  description := (task.bind Task.description).getD ""

/-- The caller-supplied inputs of one workflow instance: the entity (absent
in creation mode) and the three capability flags. -/
structure Ctx where
  task : Option Task
  canCreate : Bool
  canUpdate : Bool
  canDelete : Bool
deriving DecidableEq, Repr

/-- The mutable state of one workflow instance: the form field values, the
per-field errors, the two lifecycle booleans (`isSaving`, `isDeleting`
`useState` hooks), and whether the delete confirmation dialog is open. -/
structure Config where
  form : Draft
  errors : FieldErrors
  isSaving : Bool
  isDeleting : Bool
  dialogOpen : Bool
deriving DecidableEq, Repr

/-- The spec's three mutually exclusive lifecycle states. -/
inductive Lifecycle where
  | Idle
  | Saving
  | Deleting
deriving DecidableEq, Repr

/-- Lifecycle view of the two booleans. -/
def Config.lifecycle (c : Config) : Lifecycle :=
  if c.isSaving then .Saving else if c.isDeleting then .Deleting else .Idle

/-- Calls into the Entity Gateway (`createTask`, `updateTask`,
`deleteTask` server actions). -/
inductive GatewayCall where
  | create (d : Draft)
  | update (id : String) (d : Draft)
  | delete (id : String)
deriving DecidableEq, Repr

/-- Observable side effects: toast notifications and navigation intents
(`router.replace`, `router.push`). -/
inductive Effect where
  | toastOk (title : String)
  | toastErr (title : String)
  | navReplace (path : String)
  | navPush (path : String)
deriving DecidableEq, Repr

/-- Whether an effect is a navigation intent. -/
def Effect.isNav : Effect → Bool
  | .navReplace _ => true
  | .navPush _ => true
  | _ => false

/-- Whether an effect is a success notification. -/
def Effect.isOk : Effect → Bool
  | .toastOk _ => true
  | _ => false

/-- Whether an effect is a failure notification. -/
def Effect.isErr : Effect → Bool
  | .toastErr _ => true
  | _ => false

/-- Outcome of an awaited Gateway call: resolve with a value (the new
identity, meaningful for `create`) or reject (any thrown error —
`NotFoundError` and `RemoteError` are opaque to the `catch`). -/
inductive Outcome where
  | success (newId : String)
  | failure
deriving DecidableEq, Repr

/-- User and gateway events driving one workflow instance.  Gateway calls
are suspension points, so submitting and resolving are separate events;
the in-between configurations are the `Saving`/`Deleting` states. -/
inductive Event where
  | fieldEdit (d : Draft)
  | submitClick
  | saveResolve (o : Outcome)
  | deleteTriggerClick
  | deleteCancel
  | deleteConfirm
  | deleteResolve (o : Outcome)
  | newClick
deriving DecidableEq, Repr

/-- The Save button is rendered iff `(task ? canUpdate : canCreate)`. -/
def saveRendered (ctx : Ctx) : Bool :=
  match ctx.task with
  | some _ => ctx.canUpdate
  | none => ctx.canCreate

/-- `disabled={isSaving || isDeleting}` on the Save, Delete and New
buttons. -/
def controlsDisabled (c : Config) : Bool :=
  c.isSaving || c.isDeleting

/-- The Save trigger can fire: rendered, not disabled, and the modal
confirmation dialog (an interstitial step per the spec) is not open. -/
def saveInvocable (ctx : Ctx) (c : Config) : Bool :=
  saveRendered ctx && !controlsDisabled c && !c.dialogOpen

/-- The Delete trigger can fire: rendered iff `task && canDelete`, not
disabled, dialog not already open. -/
def deleteTriggerInvocable (ctx : Ctx) (c : Config) : Bool :=
  ctx.task.isSome && ctx.canDelete && !controlsDisabled c && !c.dialogOpen

/-- The New link can fire: rendered iff `task && canCreate`, not
disabled, dialog not open. -/
def newInvocable (ctx : Ctx) (c : Config) : Bool :=
  ctx.task.isSome && ctx.canCreate && !controlsDisabled c && !c.dialogOpen

/-- One step of the workflow: `none` when the event cannot fire in this
configuration (control not rendered, disabled, or no matching suspension);
otherwise the next configuration, the Gateway calls issued, and the
effects emitted.  Faithful to `onSubmit` and the JSX handlers:
validation runs before `setIsSaving(true)`; creation navigates via
`router.replace` then toasts; update only toasts; delete toasts then
`router.push('/tasks')`; every `catch` toasts a destructive variant and
the flag is cleared in all cases. -/
def step (ctx : Ctx) (c : Config) (e : Event) :
    Option (Config × List GatewayCall × List Effect) :=
  match e with
  | .fieldEdit d =>
      if c.isSaving || c.dialogOpen then none
      else some ({ c with form := d }, [], [])
  | .submitClick =>
      if saveInvocable ctx c then
        let errs := checkDraft c.form
        if errs = noErrors then
          match ctx.task with
          | none =>
              some ({ c with isSaving := true, errors := noErrors },
                [.create c.form], [])
          | some t =>
              some ({ c with isSaving := true, errors := noErrors },
                [.update t.id c.form], [])
        else
          some ({ c with errors := errs }, [], [])
      else none
  | .saveResolve o =>
      if c.isSaving then
        match ctx.task, o with
        | none, .success newId =>
            some ({ c with isSaving := false }, [],
              [.navReplace ("/tasks/" ++ newId), .toastOk "Task saved"])
        | some _, .success _ =>
            some ({ c with isSaving := false }, [], [.toastOk "Task saved"])
        | _, .failure =>
            some ({ c with isSaving := false }, [],
              [.toastErr "Error saving task"])
      else none
  | .deleteTriggerClick =>
      if deleteTriggerInvocable ctx c then
        some ({ c with dialogOpen := true }, [], [])
      else none
  | .deleteCancel =>
      if c.dialogOpen then some ({ c with dialogOpen := false }, [], [])
      else none
  | .deleteConfirm =>
      if c.dialogOpen then
        match ctx.task with
        | some t =>
            some ({ c with dialogOpen := false, isDeleting := true },
              [.delete t.id], [])
        | none => none
      else none
  | .deleteResolve o =>
      if c.isDeleting then
        match o with
        | .success _ =>
            some ({ c with isDeleting := false }, [],
              [.toastOk "Task deleted", .navPush "/tasks"])
        | .failure =>
            some ({ c with isDeleting := false }, [],
              [.toastErr "Error deleting task"])
      else none
  | .newClick =>
      if newInvocable ctx c then some (c, [], [.navPush "/tasks/new"])
      else none

/-- The initial configuration of a workflow instance: form seeded by
`defaultValues`, no errors, both lifecycle flags false, dialog closed. -/
def initConfig (task : Option Task) : Config where
  form := defaultValues task
  errors := noErrors
  isSaving := false
  isDeleting := false
  dialogOpen := false

/-- Configurations reachable from initialization by workflow steps. -/
inductive Reachable (ctx : Ctx) : Config → Prop where
  | init : Reachable ctx (initConfig ctx.task)
  | next {c c' : Config} {e : Event} {calls : List GatewayCall}
      {effs : List Effect} : Reachable ctx c →
      step ctx c e = some (c', calls, effs) → Reachable ctx c'

/-- The structural invariant of a workflow instance: at most one lifecycle
flag is set, and the confirmation dialog is only open when idle, in edit
mode, with delete capability. -/
def Inv (ctx : Ctx) (c : Config) : Prop :=
  (c.isSaving && c.isDeleting) = false ∧
  (c.dialogOpen = true →
    c.isSaving = false ∧ c.isDeleting = false ∧
    ctx.task.isSome = true ∧ ctx.canDelete = true)

/-- Every step of the workflow preserves the structural invariant. -/
theorem inv_step (ctx : Ctx) {c c' : Config} {e : Event}
    {calls : List GatewayCall} {effs : List Effect}
    (hInv : Inv ctx c) (h : step ctx c e = some (c', calls, effs)) :
    Inv ctx c' := by
  obtain ⟨h1, h2⟩ := hInv
  cases e <;>
    simp only [step] at h <;>
    (repeat' split at h) <;>
    simp only [Option.some.injEq, Prod.mk.injEq, reduceCtorEq, false_and] at h <;>
    obtain ⟨rfl, -, -⟩ := h <;>
    simp_all [Inv, saveInvocable, deleteTriggerInvocable, newInvocable,
      controlsDisabled, saveRendered]

/-- Every reachable configuration satisfies the structural invariant. -/
theorem inv_reachable {ctx : Ctx} {c : Config} (h : Reachable ctx c) :
    Inv ctx c := by
  induction h with
  | init => exact ⟨rfl, by simp [initConfig]⟩
  | next _ hstep ih => exact inv_step ctx ih hstep

/-- A sample persisted task used to instantiate edit-mode statements. -/
def sampleTask : Task :=
  { id := "7", title := some "Ship report", status := some "InProgress",
    description := some "" }

/-- Creation-mode context with every capability granted. -/
def ctxCreate : Ctx :=
  { task := none, canCreate := true, canUpdate := true, canDelete := true }

/-- Edit-mode context on `sampleTask` with every capability granted. -/
def ctxEdit : Ctx :=
  { task := some sampleTask, canCreate := true, canUpdate := true,
    canDelete := true }

/-- A valid sample draft. -/
def sampleDraft : Draft :=
  { title := "Ship report", status := "InProgress", description := "" }

/-- An idle configuration holding `sampleDraft`. -/
def idleConfig : Config :=
  { form := sampleDraft, errors := noErrors, isSaving := false,
    isDeleting := false, dialogOpen := false }

/-- An idle configuration with the confirmation dialog open. -/
def dialogConfig : Config :=
  { form := sampleDraft, errors := noErrors, isSaving := false,
    isDeleting := false, dialogOpen := true }

/-- C1: in creation mode, with a valid draft, canCreate granted and the
Gateway create succeeding with identity `newId`, Save issues exactly one
`create` call, emits exactly one navigation intent to `/tasks/newId` and
exactly one success notification, and the lifecycle runs
Idle → Saving → Idle. -/
theorem save_create_success_navigates_once
    (ctx : Ctx) (c : Config) (newId : String)
    (htask : ctx.task = none) (hcc : ctx.canCreate = true)
    (hvalid : checkDraft c.form = noErrors)
    (hs : c.isSaving = false) (hd : c.isDeleting = false)
    (hdlg : c.dialogOpen = false) :
    c.lifecycle = .Idle ∧
    step ctx c .submitClick =
      some ({ c with isSaving := true, errors := noErrors },
        [.create c.form], []) ∧
    ({ c with isSaving := true, errors := noErrors } : Config).lifecycle
      = .Saving ∧
    step ctx { c with isSaving := true, errors := noErrors }
        (.saveResolve (.success newId)) =
      some ({ c with isSaving := false, errors := noErrors }, [],
        [.navReplace ("/tasks/" ++ newId), .toastOk "Task saved"]) ∧
    ({ c with isSaving := false, errors := noErrors } : Config).lifecycle
      = .Idle ∧
    ([Effect.navReplace ("/tasks/" ++ newId),
        Effect.toastOk "Task saved"].countP Effect.isNav = 1 ∧
      [Effect.navReplace ("/tasks/" ++ newId),
        Effect.toastOk "Task saved"].countP Effect.isOk = 1) := by
  refine ⟨?_, ?_, ?_, ?_, ?_, ?_, ?_⟩ <;>
    simp [step, saveInvocable, saveRendered, controlsDisabled,
      Config.lifecycle, htask, hcc, hvalid, hs, hd, hdlg,
      List.countP, List.countP.go, Effect.isNav, Effect.isOk]

/-- C1 witness: the theorem instantiated in creation mode with the sample
draft and identity `42`. -/
theorem save_create_success_navigates_once_witness :
    idleConfig.lifecycle = .Idle ∧
    step ctxCreate idleConfig .submitClick =
      some ({ idleConfig with isSaving := true, errors := noErrors },
        [.create idleConfig.form], []) ∧
    ({ idleConfig with isSaving := true, errors := noErrors } :
      Config).lifecycle = .Saving ∧
    step ctxCreate { idleConfig with isSaving := true, errors := noErrors }
        (.saveResolve (.success "42")) =
      some ({ idleConfig with isSaving := false, errors := noErrors }, [],
        [.navReplace ("/tasks/" ++ "42"), .toastOk "Task saved"]) ∧
    ({ idleConfig with isSaving := false, errors := noErrors } :
      Config).lifecycle = .Idle ∧
    ([Effect.navReplace ("/tasks/" ++ "42"),
        Effect.toastOk "Task saved"].countP Effect.isNav = 1 ∧
      [Effect.navReplace ("/tasks/" ++ "42"),
        Effect.toastOk "Task saved"].countP Effect.isOk = 1) :=
  save_create_success_navigates_once ctxCreate idleConfig "42"
    rfl rfl (by decide) rfl rfl rfl

/-- C2: a draft failing schema validation surfaces per-field errors, issues
no Gateway call, and leaves the lifecycle Idle; in particular an empty
title yields a title error. -/
theorem save_invalid_draft_no_gateway
    (ctx : Ctx) (c : Config)
    (hinvoc : saveInvocable ctx c = true)
    (hinvalid : checkDraft c.form ≠ noErrors) :
    step ctx c .submitClick =
      some ({ c with errors := checkDraft c.form }, [], []) ∧
    c.lifecycle = .Idle ∧
    ({ c with errors := checkDraft c.form } : Config).lifecycle = .Idle ∧
    (∀ d : Draft, d.title = "" →
      (checkDraft d).title
        = some "String must contain at least 1 character(s)") ∧
    (∀ d : Draft, checkDraft d = noErrors ↔
      (d.title ≠ "" ∧ d.status ∈ taskStatuses)) := by
  have hall : (saveRendered ctx = true ∧
      (c.isSaving = false ∧ c.isDeleting = false)) ∧
      c.dialogOpen = false := by
    simpa [saveInvocable, controlsDisabled] using hinvoc
  have hs : c.isSaving = false := hall.1.2.1
  have hd : c.isDeleting = false := hall.1.2.2
  refine ⟨?_, ?_, ?_, ?_, ?_⟩
  · simp [step, hinvoc, hinvalid]
  · simp [Config.lifecycle, hs, hd]
  · simp [Config.lifecycle, hs, hd]
  · intro d hdt
    simp [checkDraft, validateTitle, hdt]
  · intro d
    constructor
    · intro hok
      have h1 : validateTitle d.title = none :=
        congrArg FieldErrors.title hok
      have h2 : validateStatus d.status = none :=
        congrArg FieldErrors.status hok
      constructor
      · intro hdt
        simp [validateTitle, hdt] at h1
      · by_contra hc
        simp [validateStatus, hc] at h2
    · rintro ⟨h1, h2⟩
      simp [checkDraft, validateTitle, validateStatus, noErrors, h1, h2]

/-- The sample draft with its title blanked out (fails validation). -/
def emptyTitleDraft : Draft := { sampleDraft with title := "" }

/-- An idle configuration holding the invalid empty-title draft. -/
def invalidConfig : Config := { idleConfig with form := emptyTitleDraft }

/-- C2 witness: an empty-title draft in creation mode. -/
theorem save_invalid_draft_no_gateway_witness :
    step ctxCreate invalidConfig .submitClick =
      some ({ invalidConfig with errors := checkDraft emptyTitleDraft },
        [], []) ∧
    invalidConfig.lifecycle = .Idle ∧
    ({ invalidConfig with errors := checkDraft emptyTitleDraft } :
      Config).lifecycle = .Idle ∧
    (∀ d : Draft, d.title = "" →
      (checkDraft d).title
        = some "String must contain at least 1 character(s)") ∧
    (∀ d : Draft, checkDraft d = noErrors ↔
      (d.title ≠ "" ∧ d.status ∈ taskStatuses)) :=
  save_invalid_draft_no_gateway ctxCreate invalidConfig
    (by decide) (by decide)

/-- C8: in edit mode with a valid draft and canUpdate granted, Save issues
exactly one `update` call carrying the existing identity and the draft;
on success it emits one success notification and no navigation intent. -/
theorem save_update_success_no_navigation
    (ctx : Ctx) (c : Config) (t : Task)
    (htask : ctx.task = some t) (hcu : ctx.canUpdate = true)
    (hvalid : checkDraft c.form = noErrors)
    (hs : c.isSaving = false) (hd : c.isDeleting = false)
    (hdlg : c.dialogOpen = false) :
    step ctx c .submitClick =
      some ({ c with isSaving := true, errors := noErrors },
        [.update t.id c.form], []) ∧
    (∀ v : String,
      step ctx { c with isSaving := true, errors := noErrors }
          (.saveResolve (.success v)) =
        some ({ c with isSaving := false, errors := noErrors }, [],
          [.toastOk "Task saved"])) ∧
    ([Effect.toastOk "Task saved"].countP Effect.isOk = 1 ∧
      [Effect.toastOk "Task saved"].countP Effect.isNav = 0) := by
  refine ⟨?_, fun v => ?_, ?_, ?_⟩ <;>
    simp [step, saveInvocable, saveRendered, controlsDisabled,
      htask, hcu, hvalid, hs, hd, hdlg,
      List.countP, List.countP.go, Effect.isNav, Effect.isOk]

/-- C8 witness: the theorem instantiated on the sample task. -/
theorem save_update_success_no_navigation_witness :
    step ctxEdit idleConfig .submitClick =
      some ({ idleConfig with isSaving := true, errors := noErrors },
        [.update sampleTask.id idleConfig.form], []) ∧
    (∀ v : String,
      step ctxEdit { idleConfig with isSaving := true, errors := noErrors }
          (.saveResolve (.success v)) =
        some ({ idleConfig with isSaving := false, errors := noErrors }, [],
          [.toastOk "Task saved"])) ∧
    ([Effect.toastOk "Task saved"].countP Effect.isOk = 1 ∧
      [Effect.toastOk "Task saved"].countP Effect.isNav = 0) :=
  save_update_success_no_navigation ctxEdit idleConfig sampleTask
    rfl rfl (by decide) rfl rfl rfl

/-- C10: Form State is seeded as defined strings: in creation mode the
seeds are empty title, status `Todo` and empty description, and a missing
title or description on a supplied entity is seeded as the empty
string (a missing status falls back to `Todo`). -/
theorem form_state_seeding_defaults :
    defaultValues none
      = { title := "", status := "Todo", description := "" } ∧
    (∀ t : Task, t.title = none →
      (defaultValues (some t)).title = "") ∧
    (∀ t : Task, t.description = none →
      (defaultValues (some t)).description = "") ∧
    (∀ t : Task, t.status = none →
      (defaultValues (some t)).status = "Todo") ∧
    (∀ task : Option Task, (initConfig task).form = defaultValues task) := by
  refine ⟨rfl, ?_, ?_, ?_, fun _ => rfl⟩ <;>
    intro t ht <;> simp [defaultValues, ht]

/-- A persisted entity whose editable fields are all null. -/
def nullFieldsTask : Task :=
  { id := "9", title := none, status := none, description := none }

/-- C10 witness: seeding evaluated on an entity with null title and
description. -/
theorem form_state_seeding_defaults_witness :
    defaultValues none
      = { title := "", status := "Todo", description := "" } ∧
    (defaultValues (some nullFieldsTask)).title = "" ∧
    (defaultValues (some nullFieldsTask)).description = "" ∧
    (defaultValues (some nullFieldsTask)).status = "Todo" :=
  ⟨form_state_seeding_defaults.1,
    form_state_seeding_defaults.2.1 _ rfl,
    form_state_seeding_defaults.2.2.1 _ rfl,
    form_state_seeding_defaults.2.2.2.1 _ rfl⟩

/-- C3: a Gateway failure during Save (creation or edit mode) emits
exactly one failure notification, no navigation intent, and leaves Form
State exactly as it was immediately before the call. -/
theorem save_gateway_failure_preserves_form
    (ctx : Ctx) (c : Config)
    (hinvoc : saveInvocable ctx c = true)
    (hvalid : checkDraft c.form = noErrors) :
    ∃ (c₁ : Config) (call : GatewayCall),
      step ctx c .submitClick = some (c₁, [call], []) ∧
      c₁.form = c.form ∧
      step ctx c₁ (.saveResolve .failure) =
        some ({ c₁ with isSaving := false }, [],
          [.toastErr "Error saving task"]) ∧
      ({ c₁ with isSaving := false } : Config).form = c.form ∧
      [Effect.toastErr "Error saving task"].countP Effect.isErr = 1 ∧
      [Effect.toastErr "Error saving task"].countP Effect.isNav = 0 := by
  cases htask : ctx.task with
  | none =>
    refine ⟨{ c with isSaving := true, errors := noErrors },
      .create c.form, ?_, rfl, ?_, rfl, ?_, ?_⟩ <;>
      simp [step, hinvoc, hvalid, htask, List.countP, List.countP.go,
        Effect.isErr, Effect.isNav]
  | some t =>
    refine ⟨{ c with isSaving := true, errors := noErrors },
      .update t.id c.form, ?_, rfl, ?_, rfl, ?_, ?_⟩ <;>
      simp [step, hinvoc, hvalid, htask, List.countP, List.countP.go,
        Effect.isErr, Effect.isNav]

/-- C3 witness: the theorem instantiated in creation mode with the sample
draft. -/
theorem save_gateway_failure_preserves_form_witness :
    ∃ (c₁ : Config) (call : GatewayCall),
      step ctxCreate idleConfig .submitClick = some (c₁, [call], []) ∧
      c₁.form = idleConfig.form ∧
      step ctxCreate c₁ (.saveResolve .failure) =
        some ({ c₁ with isSaving := false }, [],
          [.toastErr "Error saving task"]) ∧
      ({ c₁ with isSaving := false } : Config).form = idleConfig.form ∧
      [Effect.toastErr "Error saving task"].countP Effect.isErr = 1 ∧
      [Effect.toastErr "Error saving task"].countP Effect.isNav = 0 :=
  save_gateway_failure_preserves_form ctxCreate idleConfig
    (by decide) (by decide)

/-- C4: a Gateway delete call can only arise from the explicit
confirmation event, and cancelling the confirmation issues no Gateway
call and changes neither Form State, nor errors, nor the lifecycle. -/
theorem delete_requires_explicit_confirmation (ctx : Ctx) :
    (∀ (c : Config) (e : Event) (c' : Config) (calls : List GatewayCall)
        (effs : List Effect) (i : String),
      step ctx c e = some (c', calls, effs) →
      GatewayCall.delete i ∈ calls → e = .deleteConfirm) ∧
    (∀ c : Config, c.dialogOpen = true →
      step ctx c .deleteCancel =
        some ({ c with dialogOpen := false }, [], []) ∧
      ({ c with dialogOpen := false } : Config).form = c.form ∧
      ({ c with dialogOpen := false } : Config).errors = c.errors ∧
      ({ c with dialogOpen := false } : Config).isSaving = c.isSaving ∧
      ({ c with dialogOpen := false } : Config).isDeleting = c.isDeleting ∧
      ({ c with dialogOpen := false } : Config).lifecycle = c.lifecycle) := by
  constructor
  · intro c e c' calls effs i hstep hmem
    cases e <;> simp only [step] at hstep <;> (repeat' split at hstep) <;>
      simp only [Option.some.injEq, Prod.mk.injEq, reduceCtorEq,
        false_and, and_false] at hstep <;>
      obtain ⟨-, hcalls, -⟩ := hstep <;>
      (first
        | rfl
        | (subst hcalls; simp at hmem))
  · intro c hdlg
    refine ⟨by simp [step, hdlg], rfl, rfl, rfl, rfl, by
      simp [Config.lifecycle]⟩

/-- C4 witness: a concrete confirmed delete and a concrete cancel on the
sample edit-mode instance. -/
theorem delete_requires_explicit_confirmation_witness :
    (Event.deleteConfirm = Event.deleteConfirm) ∧
    (step ctxEdit dialogConfig .deleteCancel =
      some ({ dialogConfig with dialogOpen := false }, [], []) ∧
    ({ dialogConfig with dialogOpen := false } : Config).form
      = dialogConfig.form ∧
    ({ dialogConfig with dialogOpen := false } : Config).errors
      = dialogConfig.errors ∧
    ({ dialogConfig with dialogOpen := false } : Config).isSaving
      = dialogConfig.isSaving ∧
    ({ dialogConfig with dialogOpen := false } : Config).isDeleting
      = dialogConfig.isDeleting ∧
    ({ dialogConfig with dialogOpen := false } : Config).lifecycle
      = dialogConfig.lifecycle) :=
  ⟨(delete_requires_explicit_confirmation ctxEdit).1 dialogConfig
      .deleteConfirm
      { dialogConfig with dialogOpen := false, isDeleting := true }
      [.delete sampleTask.id] [] sampleTask.id (by decide) (by decide),
    (delete_requires_explicit_confirmation ctxEdit).2 dialogConfig rfl⟩

/-- C7: on a confirmed delete of an entity with identity `t.id`, the
Gateway `delete t.id` call is issued; a successful resolution emits
exactly one success notification and one navigation intent to `/tasks`,
and a failed resolution (such as a NotFoundError) emits exactly one
failure notification and no navigation intent. -/
theorem delete_confirmed_outcomes (ctx : Ctx) (c : Config) (t : Task)
    (htask : ctx.task = some t) (hdlg : c.dialogOpen = true) :
    step ctx c .deleteConfirm =
      some ({ c with dialogOpen := false, isDeleting := true },
        [.delete t.id], []) ∧
    (∀ i : String,
      step ctx { c with dialogOpen := false, isDeleting := true }
          (.deleteResolve (.success i)) =
        some ({ c with dialogOpen := false, isDeleting := false }, [],
          [.toastOk "Task deleted", .navPush "/tasks"])) ∧
    step ctx { c with dialogOpen := false, isDeleting := true }
        (.deleteResolve .failure) =
      some ({ c with dialogOpen := false, isDeleting := false }, [],
        [.toastErr "Error deleting task"]) ∧
    ([Effect.toastOk "Task deleted", Effect.navPush "/tasks"].countP
        Effect.isOk = 1 ∧
      [Effect.toastOk "Task deleted", Effect.navPush "/tasks"].countP
        Effect.isNav = 1 ∧
      [Effect.toastErr "Error deleting task"].countP Effect.isErr = 1 ∧
      [Effect.toastErr "Error deleting task"].countP Effect.isNav = 0) := by
  refine ⟨?_, fun i => ?_, ?_, ?_⟩ <;>
    simp [step, htask, hdlg, List.countP, List.countP.go, Effect.isOk,
      Effect.isNav, Effect.isErr]

/-- C7 witness: the theorem instantiated on the sample task with the
dialog open. -/
theorem delete_confirmed_outcomes_witness :
    step ctxEdit dialogConfig .deleteConfirm =
      some ({ dialogConfig with dialogOpen := false, isDeleting := true },
        [.delete sampleTask.id], []) ∧
    (∀ i : String,
      step ctxEdit
          { dialogConfig with dialogOpen := false, isDeleting := true }
          (.deleteResolve (.success i)) =
        some ({ dialogConfig with dialogOpen := false, isDeleting := false },
          [], [.toastOk "Task deleted", .navPush "/tasks"])) ∧
    step ctxEdit
        { dialogConfig with dialogOpen := false, isDeleting := true }
        (.deleteResolve .failure) =
      some ({ dialogConfig with dialogOpen := false, isDeleting := false },
        [], [.toastErr "Error deleting task"]) ∧
    ([Effect.toastOk "Task deleted", Effect.navPush "/tasks"].countP
        Effect.isOk = 1 ∧
      [Effect.toastOk "Task deleted", Effect.navPush "/tasks"].countP
        Effect.isNav = 1 ∧
      [Effect.toastErr "Error deleting task"].countP Effect.isErr = 1 ∧
      [Effect.toastErr "Error deleting task"].countP Effect.isNav = 0) :=
  delete_confirmed_outcomes ctxEdit dialogConfig sampleTask rfl rfl

/-- C5: in every reachable configuration Saving and Deleting are never
simultaneously active, and whenever the lifecycle is not Idle both the
Save and Delete triggers are disabled and no event can issue a Gateway
call. -/
theorem busy_disables_triggers_and_excludes
    (ctx : Ctx) (c : Config) (h : Reachable ctx c) :
    (c.isSaving && c.isDeleting) = false ∧
    (c.lifecycle ≠ .Idle →
      saveInvocable ctx c = false ∧
      deleteTriggerInvocable ctx c = false ∧
      ∀ (e : Event) (c' : Config) (calls : List GatewayCall)
        (effs : List Effect),
        step ctx c e = some (c', calls, effs) → calls = []) := by
  obtain ⟨h1, h2⟩ := inv_reachable h
  refine ⟨h1, fun hne => ?_⟩
  have hcd : controlsDisabled c = true := by
    cases hs : c.isSaving <;> cases hd : c.isDeleting <;>
      simp_all [Config.lifecycle, controlsDisabled]
  have hdlg : c.dialogOpen = false := by
    cases hdo : c.dialogOpen
    · rfl
    · obtain ⟨hs, hd, -, -⟩ := h2 hdo
      simp [controlsDisabled, hs, hd] at hcd
  have hsi : saveInvocable ctx c = false := by
    simp [saveInvocable, hcd]
  have hdi : deleteTriggerInvocable ctx c = false := by
    simp [deleteTriggerInvocable, hcd]
  have hni : newInvocable ctx c = false := by
    simp [newInvocable, hcd]
  refine ⟨hsi, hdi, fun e c' calls effs hstep => ?_⟩
  cases e <;> simp only [step, hsi, hni, hdlg] at hstep <;>
    (repeat' split at hstep) <;>
    simp only [Option.some.injEq, Prod.mk.injEq, reduceCtorEq,
      false_and, and_false, if_false, Bool.false_eq_true, if_neg] at hstep <;>
    simp_all

/-- A configuration with a save in flight on the sample draft. -/
def savingConfig : Config :=
  { form := sampleDraft, errors := noErrors, isSaving := true,
    isDeleting := false, dialogOpen := false }

/-- `idleConfig` is reachable in creation mode: initialize, then edit the
fields to the sample draft. -/
theorem reachable_idleConfig : Reachable ctxCreate idleConfig :=
  Reachable.next Reachable.init
    (show step ctxCreate (initConfig ctxCreate.task)
        (.fieldEdit sampleDraft) = some (idleConfig, [], []) from rfl)

/-- `savingConfig` is reachable in creation mode: submit the valid sample
draft from `idleConfig`. -/
theorem reachable_savingConfig : Reachable ctxCreate savingConfig :=
  Reachable.next reachable_idleConfig
    (show step ctxCreate idleConfig .submitClick =
        some (savingConfig, [.create sampleDraft], []) from by decide)

/-- C5 witness: the theorem evaluated at the reachable in-flight saving
configuration. -/
theorem busy_disables_triggers_and_excludes_witness :
    (savingConfig.isSaving && savingConfig.isDeleting) = false ∧
    (savingConfig.lifecycle ≠ .Idle →
      saveInvocable ctxCreate savingConfig = false ∧
      deleteTriggerInvocable ctxCreate savingConfig = false ∧
      ∀ (e : Event) (c' : Config) (calls : List GatewayCall)
        (effs : List Effect),
        step ctxCreate savingConfig e = some (c', calls, effs) →
        calls = []) :=
  busy_disables_triggers_and_excludes ctxCreate savingConfig
    reachable_savingConfig

/-- Creation-mode context with canCreate revoked. -/
def ctxNoCreate : Ctx :=
  { task := none, canCreate := false, canUpdate := true, canDelete := true }

/-- Edit-mode context with canUpdate revoked. -/
def ctxNoUpdate : Ctx := { ctxEdit with canUpdate := false }

/-- Edit-mode context with canDelete revoked. -/
def ctxNoDelete : Ctx := { ctxEdit with canDelete := false }

/-- C6: capability flags strictly gate action availability — Save cannot
fire in creation mode without canCreate nor in edit mode without
canUpdate, the Delete trigger cannot fire without canDelete, and
toggling a capability changes no step other than the action it gates. -/
theorem capability_flags_gate_actions (ctx : Ctx) (c : Config) :
    (ctx.task = none → ctx.canCreate = false →
      step ctx c .submitClick = none) ∧
    (∀ t : Task, ctx.task = some t → ctx.canUpdate = false →
      step ctx c .submitClick = none) ∧
    (ctx.canDelete = false → step ctx c .deleteTriggerClick = none) ∧
    (∀ (b : Bool) (e : Event), e ≠ .deleteTriggerClick →
      step { ctx with canDelete := b } c e = step ctx c e) ∧
    (∀ (b : Bool) (e : Event), e ≠ .submitClick →
      step { ctx with canUpdate := b } c e = step ctx c e) ∧
    (∀ (b : Bool) (e : Event), e ≠ .submitClick → e ≠ .newClick →
      step { ctx with canCreate := b } c e = step ctx c e) := by
  refine ⟨?_, ?_, ?_, ?_, ?_, ?_⟩
  · intro h1 h2
    simp [step, saveInvocable, saveRendered, h1, h2]
  · intro t h1 h2
    simp [step, saveInvocable, saveRendered, h1, h2]
  · intro h1
    simp [step, deleteTriggerInvocable, h1]
  · intro b e he
    cases e <;> first
      | exact absurd rfl he
      | simp [step, saveInvocable, saveRendered, deleteTriggerInvocable,
          newInvocable]
  · intro b e he
    cases e <;> first
      | exact absurd rfl he
      | simp [step, saveInvocable, saveRendered, deleteTriggerInvocable,
          newInvocable]
  · intro b e he1 he2
    cases e <;> first
      | exact absurd rfl he1
      | exact absurd rfl he2
      | simp [step, saveInvocable, saveRendered, deleteTriggerInvocable,
          newInvocable]

/-- C6 witness: revoked capabilities block the gated action, and an
unrelated capability toggle leaves other steps unchanged. -/
theorem capability_flags_gate_actions_witness :
    step ctxNoCreate idleConfig .submitClick = none ∧
    step ctxNoUpdate idleConfig .submitClick = none ∧
    step ctxNoDelete idleConfig .deleteTriggerClick = none ∧
    step { ctxEdit with canDelete := false } idleConfig .submitClick
      = step ctxEdit idleConfig .submitClick ∧
    step { ctxEdit with canUpdate := false } idleConfig .deleteTriggerClick
      = step ctxEdit idleConfig .deleteTriggerClick ∧
    step { ctxEdit with canCreate := false } idleConfig .deleteCancel
      = step ctxEdit idleConfig .deleteCancel :=
  ⟨(capability_flags_gate_actions ctxNoCreate idleConfig).1 rfl rfl,
    (capability_flags_gate_actions ctxNoUpdate idleConfig).2.1
      sampleTask rfl rfl,
    (capability_flags_gate_actions ctxNoDelete idleConfig).2.2.1 rfl,
    (capability_flags_gate_actions ctxEdit idleConfig).2.2.2.1
      false .submitClick (by decide),
    (capability_flags_gate_actions ctxEdit idleConfig).2.2.2.2.1
      false .deleteTriggerClick (by decide),
    (capability_flags_gate_actions ctxEdit idleConfig).2.2.2.2.2
      false .deleteCancel (by decide) (by decide)⟩

/-- C9: in every reachable configuration, resolving an in-flight save or
delete — with any outcome, success or failure — issues no further
Gateway call and returns the lifecycle to Idle. -/
theorem resolve_always_returns_idle (ctx : Ctx) (c : Config)
    (h : Reachable ctx c) (o : Outcome) :
    (c.isSaving = true →
      ∃ (c' : Config) (effs : List Effect),
        step ctx c (.saveResolve o) = some (c', [], effs) ∧
        c'.lifecycle = .Idle) ∧
    (c.isDeleting = true →
      ∃ (c' : Config) (effs : List Effect),
        step ctx c (.deleteResolve o) = some (c', [], effs) ∧
        c'.lifecycle = .Idle) := by
  obtain ⟨h1, -⟩ := inv_reachable h
  constructor
  · intro hs
    have hd : c.isDeleting = false := by
      cases hdx : c.isDeleting
      · rfl
      · rw [hs, hdx] at h1
        exact absurd h1 (by simp)
    cases htask : ctx.task with
    | none =>
      cases o with
      | success i =>
        exact ⟨{ c with isSaving := false },
          [.navReplace ("/tasks/" ++ i), .toastOk "Task saved"],
          by simp [step, hs, htask], by simp [Config.lifecycle, hd]⟩
      | failure =>
        exact ⟨{ c with isSaving := false },
          [.toastErr "Error saving task"],
          by simp [step, hs, htask], by simp [Config.lifecycle, hd]⟩
    | some t =>
      cases o with
      | success i =>
        exact ⟨{ c with isSaving := false }, [.toastOk "Task saved"],
          by simp [step, hs, htask], by simp [Config.lifecycle, hd]⟩
      | failure =>
        exact ⟨{ c with isSaving := false },
          [.toastErr "Error saving task"],
          by simp [step, hs, htask], by simp [Config.lifecycle, hd]⟩
  · intro hd
    have hs : c.isSaving = false := by
      cases hsx : c.isSaving
      · rfl
      · rw [hsx, hd] at h1
        exact absurd h1 (by simp)
    cases o with
    | success i =>
      exact ⟨{ c with isDeleting := false },
        [.toastOk "Task deleted", .navPush "/tasks"],
        by simp [step, hd], by simp [Config.lifecycle, hs]⟩
    | failure =>
      exact ⟨{ c with isDeleting := false },
        [.toastErr "Error deleting task"],
        by simp [step, hd], by simp [Config.lifecycle, hs]⟩

/-- C9 witness: the theorem evaluated at the reachable in-flight saving
configuration with a failing Gateway. -/
theorem resolve_always_returns_idle_witness :
    (savingConfig.isSaving = true →
      ∃ (c' : Config) (effs : List Effect),
        step ctxCreate savingConfig (.saveResolve .failure)
          = some (c', [], effs) ∧
        c'.lifecycle = .Idle) ∧
    (savingConfig.isDeleting = true →
      ∃ (c' : Config) (effs : List Effect),
        step ctxCreate savingConfig (.deleteResolve .failure)
          = some (c', [], effs) ∧
        c'.lifecycle = .Idle) :=
  resolve_always_returns_idle ctxCreate savingConfig
    reachable_savingConfig .failure

end CreateEjApp
